import Mathlib

/-!
# Verification of `fetch_genesis_data.py`

A shallow embedding of the data-fetching script of the
`geschlechtsangleichende-ops` repository, together with proofs of the
behavioural properties of its three functions `fetch_table_data`,
`combine_and_save_data` and `main`.

Pandas DataFrames are modelled as a list of column labels together with a
list of rows; a row is an association list from column label to the cell's
string value.  Cell values are modelled as strings (that is the granularity
at which the script manipulates them: it only adds a constant string column,
concatenates, sorts by one column and serialises).  A missing cell (pandas
`NaN`, as produced by concatenating frames with different column sets) is
modelled as the empty string.
-/

namespace FetchGenesis

/-- A row of a DataFrame: an association list from column label to the
cell's value. -/
abbrev Row := List (String × String)

/-- Reading a cell of a row by column label (`row[col]`); a missing cell
reads as the empty string. -/
def getCell (r : Row) (c : String) : String :=
  match r.find? (fun p => p.1 = c) with
  | some p => p.2
  | none => ""

/-- Writing a cell of a row (`row[col] = v`): the first binding of the
label is replaced in place; if the label is absent the binding is appended
at the end, matching how pandas appends a fresh column after the existing
ones. -/
def setCell : Row → String → String → Row
  | [], c, v => [(c, v)]
  | (k, x) :: r, c, v => if k = c then (c, v) :: r else (k, x) :: setCell r c v

/-- A pandas DataFrame: ordered column labels plus the list of rows. -/
structure DataFrame where
  cols : List String
  rows : List Row
deriving DecidableEq, Repr, Inhabited

/-- `df[col] = v` for a scalar `v`: every row receives the value `v` in
column `col`; the column list gains `col` at the end when it is new. -/
def setCol (df : DataFrame) (c : String) (v : String) : DataFrame :=
  { cols := if c ∈ df.cols then df.cols else df.cols ++ [c]
    rows := df.rows.map (fun r => setCell r c v) }

/-- Normalising a row to a given column list: the row is rebuilt with
exactly those labels in that order, missing cells filled with the empty
string (the model of pandas `NaN` fill during `concat`). -/
def reindex (cols : List String) (r : Row) : Row :=
  cols.map (fun c => (c, getCell r c))

/-- `pd.concat([a, b], ignore_index=True)`: the columns are the union in
order of first appearance, the rows of `a` followed by the rows of `b`,
each normalised to the common column list. -/
def dfConcat (a b : DataFrame) : DataFrame :=
  let cols := a.cols ++ b.cols.filter (fun c => c ∉ a.cols)
  { cols := cols
    rows := (a.rows ++ b.rows).map (reindex cols) }

/-- The comparison used by `sort_values('Jahr')`: rows ordered by the value
of their `Jahr` cell. -/
def jahrLeP (r s : Row) : Prop := getCell r "Jahr" ≤ getCell s "Jahr"

instance : DecidableRel jahrLeP := fun r s =>
  decidable_of_iff ((getCell r "Jahr").toList ≤ (getCell s "Jahr").toList)
    String.le_iff_toList_le.symm

instance : IsTotal Row jahrLeP := ⟨fun _ _ => le_total _ _⟩

instance : IsTrans Row jahrLeP := ⟨fun _ _ _ => le_trans⟩

/-- Lines 147–148 of the script: `if 'Jahr' in combined_data.columns:
combined_data = combined_data.sort_values('Jahr')`. -/
def sortIfJahr (df : DataFrame) : DataFrame :=
  if "Jahr" ∈ df.cols then { df with rows := df.rows.insertionSort jahrLeP } else df

/-- `combine_and_save_data(data_behandlungsort, data_wohnort)`.

The function tags each present input with the provenance column
`'Wohnort/Behandlungsort'` (on a copy), concatenates whichever inputs are
present, sorts by `'Jahr'` when that column exists, and writes the result
to the output file.  Returning `some df` models the run that reaches the
`to_csv` call with combined frame `df`; returning `none` models the run
that prints `"No data to save"`, writes nothing and returns `False`.

This function is the pure part of the body (up to and excluding the write):
tagging, concatenation and sorting are in-memory computations that do not
raise.  The function's `except` branch — any exception raised inside the
body, in practice a failing `to_csv` write — is modelled on top of it by
`combine_and_save_data_exc`, which also returns `False` (`none`) when the
write raises. -/
def combine_and_save_data (data_behandlungsort data_wohnort : Option DataFrame) :
    Option DataFrame :=
  let db := data_behandlungsort.map (fun d => setCol d "Wohnort/Behandlungsort" "nach Behandlungsort")
  let dw := data_wohnort.map (fun d => setCol d "Wohnort/Behandlungsort" "nach Wohnort")
  match db, dw with
  | some a, some b => some (sortIfJahr (dfConcat a b))
  | some a, none => some (sortIfJahr a)
  | none, some b => some (sortIfJahr b)
  | none, none => none

/-- The remote Genesis provider, abstracted: given table code, start year
and end year it either raises an exception (`Except.error`), returns no
data (`Except.ok none`, modelling `table.data is None`) or returns a
DataFrame (`Except.ok (some df)`, modelling `table.data`). -/
abbrev Provider := String → String → String → Except String (Option DataFrame)

/-- `fetch_table_data(table_code, startyear, endyear)`: the provider call is
wrapped in `try/except`; an exception is caught (its stack trace printed)
and `None` is returned; a `None` result from the provider is reported and
`None` returned; otherwise the fetched DataFrame is returned. -/
def fetch_table_data (provider : Provider)
    (table_code startyear endyear : String) : Option DataFrame :=
  match provider table_code startyear endyear with
  | Except.error _ => none
  | Except.ok none => none
  | Except.ok (some d) => some d

/-- The outcome of the `to_csv(output_file, sep=';', index=False,
encoding='utf-8')` call on the combined frame: the write either completes
(`Except.ok`) or raises an I/O exception (`Except.error`). -/
abbrev Writer := DataFrame → Except String Unit

/-- `combine_and_save_data` with its `except` branch: the body computes the
combined frame (`combine_and_save_data`), then attempts the `to_csv` write;
an exception raised by the write is caught, its stack trace printed, and
`False` (`none`) returned, exactly like the no-data case. -/
def combine_and_save_data_exc (write : Writer)
    (data_behandlungsort data_wohnort : Option DataFrame) : Option DataFrame :=
  match combine_and_save_data data_behandlungsort data_wohnort with
  | none => none
  | some df =>
    match write df with
    | Except.ok _ => some df
    | Except.error _ => none

/-- `main()`: credentials are set up first, but the script continues
whatever that step returns, so the exit code does not depend on it and it
is not modelled.  Both tables are fetched for 2005–2024; when at least one
fetch produced data, `combine_and_save_data` runs and its success flag
decides the exit code; when both fetches failed the exit code is 1.

This version models the runs in which the save raises no exception (the
write outcome is fixed to success); `main_exc` takes the write outcome as
a parameter. -/
def main (provider : Provider) : Nat :=
  let data_behandlungsort := fetch_table_data provider "23131-0011" "2005" "2024"
  let data_wohnort := fetch_table_data provider "23131-0012" "2005" "2024"
  if data_behandlungsort.isSome ∨ data_wohnort.isSome then
    match combine_and_save_data data_behandlungsort data_wohnort with
    | some _ => 0
    | none => 1
  else
    1

/-- `main()` with the save outcome explicit: as `main`, but the
`combine_and_save_data` call can also fail because the `to_csv` write
raises, in which case it returns `False` and `main` returns 1. -/
def main_exc (provider : Provider) (write : Writer) : Nat :=
  let data_behandlungsort := fetch_table_data provider "23131-0011" "2005" "2024"
  let data_wohnort := fetch_table_data provider "23131-0012" "2005" "2024"
  if data_behandlungsort.isSome ∨ data_wohnort.isSome then
    match combine_and_save_data_exc write data_behandlungsort data_wohnort with
    | some _ => 0
    | none => 1
  else
    1

/-! ## The CSV serialisation (`to_csv(output_file, sep=';', index=False, encoding='utf-8')`)

The writer follows pandas' minimal quoting: a field is written verbatim
unless it contains the separator, a double quote or a line break, in which
case it is wrapped in double quotes with inner quotes doubled.  Each record
(the header line first, then one line per row, no index column) ends with a
newline.  The parser reads the same format back. -/

/-- A field needs quoting when it contains the separator, a quote or a
line break (pandas `QUOTE_MINIMAL`). -/
def needsQuote (s : String) : Bool :=
  s.data.any (fun c => c = ';' || c = '"' || c = '\n' || c = '\r')

/-- Quote-doubling of the characters of a quoted field. -/
def escChars : List Char → List Char
  | [] => []
  | c :: cs => if c = '"' then '"' :: '"' :: escChars cs else c :: escChars cs

/-- Serialising one field, quoting it only when needed. -/
def escField (s : String) : List Char :=
  if needsQuote s then '"' :: (escChars s.data ++ ['"']) else s.data

/-- Serialising one record: its fields joined with the semicolon
separator. -/
def writeRecord : List String → List Char
  | [] => []
  | [f] => escField f
  | f :: fs => escField f ++ ';' :: writeRecord fs

/-- Serialising a list of records, each line terminated by a newline. -/
def writeAll : List (List String) → List Char
  | [] => []
  | r :: rs => writeRecord r ++ '\n' :: writeAll rs

/-- The records `to_csv` emits for a DataFrame: the header line with the
column labels, then each row's cells in column order (`index=False`: no
index column). -/
def recordsOf (df : DataFrame) : List (List String) :=
  df.cols :: df.rows.map (fun r => df.cols.map (fun c => getCell r c))

/-- The text `combined_data.to_csv(output_file, sep=';', index=False,
encoding='utf-8')` writes. -/
def toCsv (df : DataFrame) : String :=
  String.mk (writeAll (recordsOf df))

/-- Scanning an unquoted field: the characters up to (excluding) the next
separator or newline, together with the unconsumed remainder. -/
def takeField : List Char → List Char × List Char
  | [] => ([], [])
  | c :: cs =>
    if c = ';' || c = '\n' then ([], c :: cs)
    else
      let p := takeField cs
      (c :: p.1, p.2)

/-- Scanning a quoted field after its opening quote: a doubled quote is an
escaped quote character, a single quote closes the field; an unterminated
quote is a parse error. -/
def takeQField : List Char → Option (List Char × List Char)
  | [] => none
  | [c] => if c = '"' then some ([], []) else none
  | c :: c2 :: cs =>
    if c = '"' then
      if c2 = '"' then (takeQField cs).map (fun p => ('"' :: p.1, p.2))
      else some ([], c2 :: cs)
    else (takeQField (c2 :: cs)).map (fun p => (c :: p.1, p.2))

/-- Parsing one field: a leading quote starts a quoted field, anything else
an unquoted one. -/
def parseOneField : List Char → Option (String × List Char)
  | [] => some ("", [])
  | c :: rest =>
    if c = '"' then (takeQField rest).map (fun p => (String.mk p.1, p.2))
    else
      let p := takeField (c :: rest)
      some (String.mk p.1, p.2)

/-- Parsing the fields of one record up to and including its terminating
newline (fuelled to keep the recursion structural). -/
def parseFields : Nat → List Char → Option (List String × List Char)
  | 0, _ => none
  | fuel + 1, cs =>
    match parseOneField cs with
    | none => none
    | some (f, r) =>
      match r with
      | ';' :: r2 => (parseFields fuel r2).map (fun p => (f :: p.1, p.2))
      | '\n' :: r2 => some ([f], r2)
      | _ => none

/-- Parsing a sequence of newline-terminated records. -/
def parseRecords : Nat → List Char → Option (List (List String))
  | 0, _ => none
  | fuel + 1, cs =>
    if cs.isEmpty then some []
    else
      match parseFields (cs.length + 1) cs with
      | none => none
      | some (fs, rest) => (parseRecords fuel rest).map (fun rs => fs :: rs)

/-- Parsing a CSV text back with the same separator: the first record is
the header (the column labels), the remaining records are the rows. -/
def parseCsv (s : String) : Option (List String × List (List String)) :=
  match parseRecords (s.data.length + 1) s.data with
  | some (header :: rows) => some (header, rows)
  | _ => none

/-! ## Aliasing model of `combine_and_save_data`

The Python function receives references to the caller's DataFrames and
executes `data_behandlungsort = data_behandlungsort.copy()` before the
column assignment mutates anything.  To talk about what happens to the
caller's objects, the same function body is transcribed once more over an
explicit heap of DataFrames, with the inputs passed as references
(indices); `.copy()` allocates a fresh cell, and the column assignment
mutates the copy's cell in place. -/

/-- The heap of live DataFrame objects; a reference is an index into it. -/
abbrev Heap := List DataFrame

/-- `combine_and_save_data` over an explicit heap: `iB`/`iW` are the
caller's references to the two inputs (or `none` for a `None` argument).
Each present input is copied into a fresh heap cell which is then mutated
by the provenance-column assignment; `pd.concat`, `sort_values` and
`to_csv` allocate only fresh local data.  Returns the heap after the call
and the DataFrame written (as in `combine_and_save_data`). -/
def combine_and_save_data_st (h : Heap) (iB iW : Option Nat) :
    Heap × Option DataFrame :=
  -- data_behandlungsort = data_behandlungsort.copy(); data_behandlungsort[...] = ...
  let hB : Heap × Option Nat :=
    match iB with
    | some i =>
      let h1 := h ++ [h.getD i default]
      (h1.set h.length (setCol (h1.getD h.length default) "Wohnort/Behandlungsort" "nach Behandlungsort"),
        some h.length)
    | none => (h, none)
  -- data_wohnort = data_wohnort.copy(); data_wohnort[...] = ...
  let hW : Heap × Option Nat :=
    match iW with
    | some i =>
      let h2 := hB.1 ++ [hB.1.getD i default]
      (h2.set hB.1.length (setCol (h2.getD hB.1.length default) "Wohnort/Behandlungsort" "nach Wohnort"),
        some hB.1.length)
    | none => (hB.1, none)
  let heap := hW.1
  match hB.2, hW.2 with
  | some rB, some rW => (heap, some (sortIfJahr (dfConcat (heap.getD rB default) (heap.getD rW default))))
  | some rB, none => (heap, some (sortIfJahr (heap.getD rB default)))
  | none, some rW => (heap, some (sortIfJahr (heap.getD rW default)))
  | none, none => (heap, none)

/-! ## Basic lemmas about rows and frames -/

lemma getCell_setCell_self (r : Row) (c v : String) :
    getCell (setCell r c v) c = v := by
  induction r with
  | nil => simp [setCell, getCell]
  | cons p r ih =>
    obtain ⟨k, x⟩ := p
    by_cases hk : k = c
    · subst hk
      simp [setCell, getCell]
    · simp only [setCell, if_neg hk]
      unfold getCell
      rw [List.find?_cons_of_neg _ (by simpa using hk)]
      exact ih

lemma getCell_reindex (cols : List String) (r : Row) (c : String)
    (h : c ∈ cols) : getCell (reindex cols r) c = getCell r c := by
  induction cols with
  | nil => cases h
  | cons d cols ih =>
    by_cases hd : d = c
    · subst hd
      simp [reindex, getCell]
    · have hc : c ∈ cols := by
        rcases List.mem_cons.mp h with h1 | h1
        · exact absurd h1.symm hd
        · exact h1
      unfold reindex getCell at ih ⊢
      rw [List.map_cons, List.find?_cons_of_neg _ (by simpa using hd)]
      exact ih hc

lemma mem_cols_setCol (df : DataFrame) (c v : String) :
    c ∈ (setCol df c v).cols := by
  unfold setCol
  by_cases h : c ∈ df.cols <;> simp [h]

lemma rows_setCol (df : DataFrame) (c v : String) :
    (setCol df c v).rows = df.rows.map (fun r => setCell r c v) := rfl

lemma cols_sortIfJahr (df : DataFrame) : (sortIfJahr df).cols = df.cols := by
  unfold sortIfJahr
  split <;> rfl

lemma rows_sortIfJahr_perm (df : DataFrame) :
    (sortIfJahr df).rows.Perm df.rows := by
  unfold sortIfJahr
  split
  · exact List.perm_insertionSort jahrLeP df.rows
  · exact List.Perm.refl _

lemma rows_length_sortIfJahr (df : DataFrame) :
    (sortIfJahr df).rows.length = df.rows.length :=
  (rows_sortIfJahr_perm df).length_eq

lemma dfConcat_cols (a b : DataFrame) :
    (dfConcat a b).cols = a.cols ++ b.cols.filter (fun c => c ∉ a.cols) := rfl

lemma dfConcat_rows (a b : DataFrame) :
    (dfConcat a b).rows = (a.rows ++ b.rows).map (reindex ((dfConcat a b).cols)) := rfl

/-! ## Example data used by the witnesses -/

/-- A concrete treatment-location table. -/
def dfExA : DataFrame := ⟨["Jahr"], [[("Jahr", "2006")], [("Jahr", "2005")]]⟩

/-- A concrete residence-location table. -/
def dfExB : DataFrame := ⟨["Jahr"], [[("Jahr", "2005")]]⟩

/-- The frame `combine_and_save_data (some dfExA) (some dfExB)` writes. -/
def dfExC : DataFrame :=
  sortIfJahr (dfConcat (setCol dfExA "Wohnort/Behandlungsort" "nach Behandlungsort")
    (setCol dfExB "Wohnort/Behandlungsort" "nach Wohnort"))

/-- A provider for which both tables yield no data. -/
def provNoData : Provider := fun _ _ _ => Except.ok none

/-- A provider that raises on every request. -/
def provRaises : Provider := fun _ _ _ => Except.error "connection error"

/-- A provider that returns data for every request. -/
def provData : Provider := fun _ _ _ => Except.ok (some dfExA)

/-- A provider for which only the residence-location table (23131-0012)
yields data; the treatment-location fetch fails. -/
def provOnlyWohnort : Provider := fun code _ _ =>
  if code = "23131-0012" then Except.ok (some dfExB) else Except.ok none

/-! ## The claims -/

/-- **C1.** For every pair of non-null input tables, the combined dataset
produced by `combine_and_save_data` has a row count equal to the sum of
the two input row counts: no rows are dropped or deduplicated. -/
theorem combine_row_count_sum (a b df : DataFrame)
    (h : combine_and_save_data (some a) (some b) = some df) :
    df.rows.length = a.rows.length + b.rows.length := by
  have hdf : df = sortIfJahr (dfConcat
      (setCol a "Wohnort/Behandlungsort" "nach Behandlungsort")
      (setCol b "Wohnort/Behandlungsort" "nach Wohnort")) := by
    simpa [combine_and_save_data] using h.symm
  subst hdf
  rw [rows_length_sortIfJahr, dfConcat_rows, List.length_map, List.length_append,
    rows_setCol, rows_setCol, List.length_map, List.length_map]

/-- Witness for C1 at concrete two-row and one-row inputs. -/
theorem combine_row_count_sum_witness :
    combine_and_save_data (some dfExA) (some dfExB) = some dfExC ∧
      dfExC.rows.length = dfExA.rows.length + dfExB.rows.length :=
  ⟨rfl, combine_row_count_sum dfExA dfExB dfExC rfl⟩

/-- **C2, counterexample.** The claim says the exit code is 1 whenever at
least one of the two fetches fails; here the treatment-location fetch
fails (returns `None`) yet the run exits with code 0, because the
residence-location fetch succeeded and the save succeeded. -/
theorem main_exit_counterexample :
    fetch_table_data provOnlyWohnort "23131-0011" "2005" "2024" = none ∧
      main provOnlyWohnort = 0 := by
  constructor <;> rfl

/-- `main` is the write-succeeds instance of `main_exc`. -/
lemma main_eq_main_exc (prov : Provider) :
    main prov = main_exc prov (fun _ => Except.ok ()) := by
  unfold main main_exc combine_and_save_data_exc
  cases hc : combine_and_save_data (fetch_table_data prov "23131-0011" "2005" "2024")
      (fetch_table_data prov "23131-0012" "2005" "2024") <;> simp [hc]

/-- **C2, amended.** For every provider and every save outcome, the exit
code is 0 or 1, and it is 0 exactly when at least one of the two table
fetches returned data and the `to_csv` write of the combined frame raised
no exception; it is 1 when both fetches fail or when the save raises.  In
particular a run in which exactly one fetch fails while the save succeeds
exits 0 (the counterexample), not 1 as the claim states. -/
theorem main_exit_code (prov : Provider) (write : Writer) :
    (main_exc prov write = 0 ∨ main_exc prov write = 1) ∧
      (main_exc prov write = 0 ↔
        ((fetch_table_data prov "23131-0011" "2005" "2024").isSome ∨
            (fetch_table_data prov "23131-0012" "2005" "2024").isSome) ∧
          ∀ df, combine_and_save_data
              (fetch_table_data prov "23131-0011" "2005" "2024")
              (fetch_table_data prov "23131-0012" "2005" "2024") = some df →
            (write df).isOk) := by
  unfold main_exc combine_and_save_data_exc
  rcases hA : fetch_table_data prov "23131-0011" "2005" "2024" with _ | a <;>
    rcases hB : fetch_table_data prov "23131-0012" "2005" "2024" with _ | b
  · simp [combine_and_save_data]
  · cases hw : write (sortIfJahr (setCol b "Wohnort/Behandlungsort" "nach Wohnort")) <;>
      simp [combine_and_save_data, hw, Except.isOk, Except.toBool]
  · cases hw : write (sortIfJahr (setCol a "Wohnort/Behandlungsort" "nach Behandlungsort")) <;>
      simp [combine_and_save_data, hw, Except.isOk, Except.toBool]
  · cases hw : write (sortIfJahr (dfConcat
        (setCol a "Wohnort/Behandlungsort" "nach Behandlungsort")
        (setCol b "Wohnort/Behandlungsort" "nach Wohnort"))) <;>
      simp [combine_and_save_data, hw, Except.isOk, Except.toBool]

/-- **C3.** If both table fetches return null, `combine_and_save_data` is
given no present input and reports failure (returns `none`: nothing is
written), and the process exits with code 1. -/
theorem both_none_no_output (prov : Provider)
    (h1 : fetch_table_data prov "23131-0011" "2005" "2024" = none)
    (h2 : fetch_table_data prov "23131-0012" "2005" "2024" = none) :
    combine_and_save_data (fetch_table_data prov "23131-0011" "2005" "2024")
        (fetch_table_data prov "23131-0012" "2005" "2024") = none ∧
      main prov = 1 := by
  rw [h1, h2]
  refine ⟨rfl, ?_⟩
  unfold main
  rw [h1, h2]
  simp

/-- Witness for C3 at the provider that returns no data for any table. -/
theorem both_none_no_output_witness :
    combine_and_save_data (fetch_table_data provNoData "23131-0011" "2005" "2024")
        (fetch_table_data provNoData "23131-0012" "2005" "2024") = none ∧
      main provNoData = 1 :=
  both_none_no_output provNoData rfl rfl

/-- **C8.** For every table code and year range, `fetch_table_data` never
propagates an exception: a raising provider call is caught and `none`
returned; a provider returning no data yields `none`; otherwise the
provider's tabular result is returned. -/
theorem fetch_never_raises (prov : Provider) (code s e : String) :
    (∀ msg, prov code s e = Except.error msg →
        fetch_table_data prov code s e = none) ∧
      (prov code s e = Except.ok none → fetch_table_data prov code s e = none) ∧
      (∀ d, prov code s e = Except.ok (some d) →
        fetch_table_data prov code s e = some d) := by
  refine ⟨fun msg h => ?_, fun h => ?_, fun d h => ?_⟩ <;>
    · unfold fetch_table_data
      rw [h]

/-- Witness for C8: the three provider outcomes at concrete providers. -/
theorem fetch_never_raises_witness :
    fetch_table_data provRaises "23131-0011" "2005" "2024" = none ∧
      fetch_table_data provNoData "23131-0011" "2005" "2024" = none ∧
      fetch_table_data provData "23131-0011" "2005" "2024" = some dfExA :=
  ⟨(fetch_never_raises provRaises "23131-0011" "2005" "2024").1
      "connection error" rfl,
    (fetch_never_raises provNoData "23131-0011" "2005" "2024").2.1 rfl,
    (fetch_never_raises provData "23131-0011" "2005" "2024").2.2 dfExA rfl⟩

/-- Tagging one input and sorting: the resulting rows are a permutation of
the input rows with the provenance cell set, the row count is unchanged,
and every resulting row carries the tag value. -/
lemma sortIfJahr_setCol_spec (d : DataFrame) (v : String) :
    (sortIfJahr (setCol d "Wohnort/Behandlungsort" v)).rows.Perm
        (d.rows.map (fun r => setCell r "Wohnort/Behandlungsort" v)) ∧
      (sortIfJahr (setCol d "Wohnort/Behandlungsort" v)).rows.length = d.rows.length ∧
      ∀ r ∈ (sortIfJahr (setCol d "Wohnort/Behandlungsort" v)).rows,
        getCell r "Wohnort/Behandlungsort" = v := by
  have hperm := rows_sortIfJahr_perm (setCol d "Wohnort/Behandlungsort" v)
  rw [rows_setCol] at hperm
  refine ⟨hperm, by simpa using hperm.length_eq, fun r hr => ?_⟩
  obtain ⟨r0, _, rfl⟩ := List.mem_map.mp (hperm.subset hr)
  exact getCell_setCell_self r0 _ v

/-- **C4.** Every row of the combined dataset carries a
`'Wohnort/Behandlungsort'` tag matching the table it originated from:
each output row is a row of the treatment-location input with the cell set
to `'nach Behandlungsort'`, or a row of the residence-location input with
the cell set to `'nach Wohnort'` (normalised to the combined column
list). -/
theorem combined_rows_tagged_by_origin (a b df : DataFrame) (r : Row)
    (h : combine_and_save_data (some a) (some b) = some df)
    (hr : r ∈ df.rows) :
    (∃ r0 ∈ a.rows,
        r = reindex (dfConcat (setCol a "Wohnort/Behandlungsort" "nach Behandlungsort")
              (setCol b "Wohnort/Behandlungsort" "nach Wohnort")).cols
            (setCell r0 "Wohnort/Behandlungsort" "nach Behandlungsort") ∧
          getCell r "Wohnort/Behandlungsort" = "nach Behandlungsort") ∨
      (∃ r0 ∈ b.rows,
        r = reindex (dfConcat (setCol a "Wohnort/Behandlungsort" "nach Behandlungsort")
              (setCol b "Wohnort/Behandlungsort" "nach Wohnort")).cols
            (setCell r0 "Wohnort/Behandlungsort" "nach Wohnort") ∧
          getCell r "Wohnort/Behandlungsort" = "nach Wohnort") := by
  have hdf : df = sortIfJahr (dfConcat
      (setCol a "Wohnort/Behandlungsort" "nach Behandlungsort")
      (setCol b "Wohnort/Behandlungsort" "nach Wohnort")) := by
    simpa [combine_and_save_data] using h.symm
  subst hdf
  have hmem : "Wohnort/Behandlungsort" ∈
      (dfConcat (setCol a "Wohnort/Behandlungsort" "nach Behandlungsort")
        (setCol b "Wohnort/Behandlungsort" "nach Wohnort")).cols := by
    rw [dfConcat_cols]
    exact List.mem_append_left _ (mem_cols_setCol a _ _)
  have hr' := (rows_sortIfJahr_perm _).subset hr
  rw [dfConcat_rows] at hr'
  obtain ⟨r1, hr1, rfl⟩ := List.mem_map.mp hr'
  rcases List.mem_append.mp hr1 with h1 | h1
  · left
    rw [rows_setCol] at h1
    obtain ⟨r0, hr0, rfl⟩ := List.mem_map.mp h1
    exact ⟨r0, hr0, rfl, by rw [getCell_reindex _ _ _ hmem, getCell_setCell_self]⟩
  · right
    rw [rows_setCol] at h1
    obtain ⟨r0, hr0, rfl⟩ := List.mem_map.mp h1
    exact ⟨r0, hr0, rfl, by rw [getCell_reindex _ _ _ hmem, getCell_setCell_self]⟩

/-- Witness for C4 at a concrete combined row. -/
theorem combined_rows_tagged_by_origin_witness :
    (∃ r0 ∈ dfExA.rows,
        [("Jahr", "2005"), ("Wohnort/Behandlungsort", "nach Behandlungsort")] =
          reindex (dfConcat (setCol dfExA "Wohnort/Behandlungsort" "nach Behandlungsort")
              (setCol dfExB "Wohnort/Behandlungsort" "nach Wohnort")).cols
            (setCell r0 "Wohnort/Behandlungsort" "nach Behandlungsort") ∧
          getCell [("Jahr", "2005"), ("Wohnort/Behandlungsort", "nach Behandlungsort")]
            "Wohnort/Behandlungsort" = "nach Behandlungsort") ∨
      (∃ r0 ∈ dfExB.rows,
        [("Jahr", "2005"), ("Wohnort/Behandlungsort", "nach Behandlungsort")] =
          reindex (dfConcat (setCol dfExA "Wohnort/Behandlungsort" "nach Behandlungsort")
              (setCol dfExB "Wohnort/Behandlungsort" "nach Wohnort")).cols
            (setCell r0 "Wohnort/Behandlungsort" "nach Wohnort") ∧
          getCell [("Jahr", "2005"), ("Wohnort/Behandlungsort", "nach Behandlungsort")]
            "Wohnort/Behandlungsort" = "nach Wohnort") :=
  combined_rows_tagged_by_origin dfExA dfExB dfExC
    [("Jahr", "2005"), ("Wohnort/Behandlungsort", "nach Behandlungsort")]
    rfl (by decide)

/-- **C5.** If exactly one of the two inputs is non-null, the saved output
contains exactly that table's rows — same row count, and the rows are a
permutation of the input rows with the provenance cell set to that table's
tag value — and every saved row carries that tag. -/
theorem single_input_passthrough (a b dfB dfW : DataFrame)
    (hB : combine_and_save_data (some a) none = some dfB)
    (hW : combine_and_save_data none (some b) = some dfW) :
    (dfB.rows.Perm
        (a.rows.map (fun r => setCell r "Wohnort/Behandlungsort" "nach Behandlungsort")) ∧
      dfB.rows.length = a.rows.length ∧
      ∀ r ∈ dfB.rows, getCell r "Wohnort/Behandlungsort" = "nach Behandlungsort") ∧
    (dfW.rows.Perm
        (b.rows.map (fun r => setCell r "Wohnort/Behandlungsort" "nach Wohnort")) ∧
      dfW.rows.length = b.rows.length ∧
      ∀ r ∈ dfW.rows, getCell r "Wohnort/Behandlungsort" = "nach Wohnort") := by
  have hdfB : dfB = sortIfJahr (setCol a "Wohnort/Behandlungsort" "nach Behandlungsort") := by
    simpa [combine_and_save_data] using hB.symm
  have hdfW : dfW = sortIfJahr (setCol b "Wohnort/Behandlungsort" "nach Wohnort") := by
    simpa [combine_and_save_data] using hW.symm
  subst hdfB hdfW
  exact ⟨sortIfJahr_setCol_spec a _, sortIfJahr_setCol_spec b _⟩

/-- The frame written when only the treatment-location input is present. -/
def dfExBo : DataFrame :=
  sortIfJahr (setCol dfExA "Wohnort/Behandlungsort" "nach Behandlungsort")

/-- The frame written when only the residence-location input is present. -/
def dfExWo : DataFrame :=
  sortIfJahr (setCol dfExB "Wohnort/Behandlungsort" "nach Wohnort")

/-- Witness for C5 at the two concrete single-input runs. -/
theorem single_input_passthrough_witness :
    (dfExBo.rows.Perm
        (dfExA.rows.map (fun r => setCell r "Wohnort/Behandlungsort" "nach Behandlungsort")) ∧
      dfExBo.rows.length = dfExA.rows.length ∧
      ∀ r ∈ dfExBo.rows, getCell r "Wohnort/Behandlungsort" = "nach Behandlungsort") ∧
    (dfExWo.rows.Perm
        (dfExB.rows.map (fun r => setCell r "Wohnort/Behandlungsort" "nach Wohnort")) ∧
      dfExWo.rows.length = dfExB.rows.length ∧
      ∀ r ∈ dfExWo.rows, getCell r "Wohnort/Behandlungsort" = "nach Wohnort") :=
  single_input_passthrough dfExA dfExB dfExBo dfExWo rfl rfl

/-- **C6.** Whenever the combined dataset has a `'Jahr'` column,
`combine_and_save_data` sorts it by that column before writing, so the
written rows are pairwise non-decreasing in the `'Jahr'` cell. -/
theorem sorted_by_jahr (oa ob : Option DataFrame) (df : DataFrame)
    (h : combine_and_save_data oa ob = some df)
    (hJ : "Jahr" ∈ df.cols) :
    df.rows.Pairwise (fun r s => getCell r "Jahr" ≤ getCell s "Jahr") := by
  obtain ⟨X, rfl⟩ : ∃ X, df = sortIfJahr X := by
    rcases oa with _ | a <;> rcases ob with _ | b
    · simp [combine_and_save_data] at h
    · exact ⟨_, by simpa [combine_and_save_data] using h.symm⟩
    · exact ⟨_, by simpa [combine_and_save_data] using h.symm⟩
    · exact ⟨_, by simpa [combine_and_save_data] using h.symm⟩
  rw [cols_sortIfJahr] at hJ
  unfold sortIfJahr
  rw [if_pos hJ]
  exact (List.sorted_insertionSort jahrLeP X.rows).imp (fun hab => hab)

/-- Witness for C6: the concrete combined frame is sorted by year. -/
theorem sorted_by_jahr_witness :
    dfExC.rows.Pairwise (fun r s => getCell r "Jahr" ≤ getCell s "Jahr") :=
  sorted_by_jahr (some dfExA) (some dfExB) dfExC rfl (by decide)

/-- **C10.** If the combined dataset has no `'Jahr'` column, no sorting
occurs: with both inputs present, the written rows are exactly the tagged
treatment-location rows in their original order followed by the tagged
residence-location rows in their original order. -/
theorem no_jahr_concat_order (a b df : DataFrame)
    (h : combine_and_save_data (some a) (some b) = some df)
    (hJ : "Jahr" ∉ df.cols) :
    df.rows =
      a.rows.map (fun r =>
        reindex (dfConcat (setCol a "Wohnort/Behandlungsort" "nach Behandlungsort")
            (setCol b "Wohnort/Behandlungsort" "nach Wohnort")).cols
          (setCell r "Wohnort/Behandlungsort" "nach Behandlungsort")) ++
      b.rows.map (fun r =>
        reindex (dfConcat (setCol a "Wohnort/Behandlungsort" "nach Behandlungsort")
            (setCol b "Wohnort/Behandlungsort" "nach Wohnort")).cols
          (setCell r "Wohnort/Behandlungsort" "nach Wohnort")) := by
  have hdf : df = sortIfJahr (dfConcat
      (setCol a "Wohnort/Behandlungsort" "nach Behandlungsort")
      (setCol b "Wohnort/Behandlungsort" "nach Wohnort")) := by
    simpa [combine_and_save_data] using h.symm
  subst hdf
  rw [cols_sortIfJahr] at hJ
  have hid : sortIfJahr (dfConcat
      (setCol a "Wohnort/Behandlungsort" "nach Behandlungsort")
      (setCol b "Wohnort/Behandlungsort" "nach Wohnort")) = dfConcat
      (setCol a "Wohnort/Behandlungsort" "nach Behandlungsort")
      (setCol b "Wohnort/Behandlungsort" "nach Wohnort") := by
    unfold sortIfJahr
    rw [if_neg hJ]
  rw [hid, dfConcat_rows, rows_setCol, rows_setCol, List.map_append,
    List.map_map, List.map_map]
  rfl

/-- A concrete treatment-location table without a year column. -/
def dfExNA : DataFrame := ⟨["Wert"], [[("Wert", "1")], [("Wert", "2")]]⟩

/-- A concrete residence-location table without a year column. -/
def dfExNB : DataFrame := ⟨["Wert"], [[("Wert", "3")]]⟩

/-- The combined frame of the two year-less tables. -/
def dfExNC : DataFrame :=
  sortIfJahr (dfConcat (setCol dfExNA "Wohnort/Behandlungsort" "nach Behandlungsort")
    (setCol dfExNB "Wohnort/Behandlungsort" "nach Wohnort"))

/-- Witness for C10 at the concrete year-less tables. -/
theorem no_jahr_concat_order_witness :
    dfExNC.rows =
      dfExNA.rows.map (fun r =>
        reindex (dfConcat (setCol dfExNA "Wohnort/Behandlungsort" "nach Behandlungsort")
            (setCol dfExNB "Wohnort/Behandlungsort" "nach Wohnort")).cols
          (setCell r "Wohnort/Behandlungsort" "nach Behandlungsort")) ++
      dfExNB.rows.map (fun r =>
        reindex (dfConcat (setCol dfExNA "Wohnort/Behandlungsort" "nach Behandlungsort")
            (setCol dfExNB "Wohnort/Behandlungsort" "nach Wohnort")).cols
          (setCell r "Wohnort/Behandlungsort" "nach Wohnort")) :=
  no_jahr_concat_order dfExNA dfExNB dfExNC rfl (by decide)

/-- Overwriting the freshly appended cell of a heap touches nothing else. -/
lemma set_append_singleton {α : Type} (l : List α) (x y : α) :
    (l ++ [x]).set l.length y = l ++ [y] := by
  induction l with
  | nil => rfl
  | cons a l ih => simp [List.set, ih]

/-- **C9.** `combine_and_save_data` leaves the caller's DataFrames
unchanged: the provenance column is added to copies, so every heap cell
that existed before the call holds the same frame (same rows and columns)
after it, whatever the two argument references are. -/
theorem combine_preserves_inputs (h : Heap) (iB iW : Option Nat) :
    (combine_and_save_data_st h iB iW).1.take h.length = h := by
  rcases iB with _ | i <;> rcases iW with _ | j <;>
    simp only [combine_and_save_data_st, set_append_singleton]
  · exact List.take_length h
  · exact List.take_left h _
  · exact List.take_left h _
  · rw [List.append_assoc]
    exact List.take_left h _

/-! ## Round-trip of the CSV serialisation -/

lemma mk_data (s : String) : String.mk s.data = s := rfl

/-- A field that needs no quoting contains no separator, quote or line
break. -/
lemma needsQuote_false_spec (s : String) (h : needsQuote s = false) :
    ∀ c ∈ s.data, ¬c = ';' ∧ ¬c = '"' ∧ ¬c = '\n' ∧ ¬c = '\r' := by
  intro c hc
  have := List.any_eq_false.mp h c hc
  simpa [and_assoc] using this

/-- Scanning an unquoted field stops exactly at the field's terminator. -/
lemma takeField_append (cs : List Char) (d : Char) (r : List Char)
    (hcs : ∀ c ∈ cs, ¬c = ';' ∧ ¬c = '\n') (hd : d = ';' ∨ d = '\n') :
    takeField (cs ++ d :: r) = (cs, d :: r) := by
  induction cs with
  | nil =>
    have : (d = ';' || d = '\n') = true := by
      rcases hd with h | h <;> simp [h]
    simp [takeField, this]
  | cons c cs ih =>
    have hc := hcs c (List.mem_cons_self c cs)
    have hif : (c = ';' || c = '\n') = false := by
      simp [hc.1, hc.2]
    simp only [List.cons_append, takeField, hif, Bool.false_eq_true, if_false,
      List.append_eq, ih (fun x hx => hcs x (List.mem_cons_of_mem c hx))]

/-- Scanning a quoted field undoes the quote doubling and stops at the
closing quote, provided the next character is not a quote. -/
lemma takeQField_esc (cs : List Char) (d : Char) (r : List Char)
    (hd : ¬d = '"') :
    takeQField (escChars cs ++ '"' :: d :: r) = some (cs, d :: r) := by
  induction cs with
  | nil => simp [escChars, takeQField, hd]
  | cons c cs ih =>
    by_cases hc : c = '"'
    · subst hc
      simpa [escChars, takeQField] using ih
    · obtain ⟨t, ts, heq⟩ : ∃ t ts, escChars cs ++ '"' :: d :: r = t :: ts := by
        cases h : escChars cs with
        | nil => exact ⟨'"', d :: r, by simp [h]⟩
        | cons t ts => exact ⟨t, ts ++ '"' :: d :: r, by simp [h]⟩
      have h1 : escChars (c :: cs) ++ '"' :: d :: r =
          c :: (escChars cs ++ '"' :: d :: r) := by
        simp [escChars, hc]
      have h2 : takeQField (c :: t :: ts) =
          (takeQField (t :: ts)).map (fun p => (c :: p.1, p.2)) := by
        simp [takeQField, hc]
      rw [h1, heq, h2, ← heq, ih]
      rfl

/-- Parsing one serialised field recovers the field and stops at its
terminator. -/
lemma parseOneField_escField (f : String) (d : Char) (r : List Char)
    (hd : d = ';' ∨ d = '\n') :
    parseOneField (escField f ++ d :: r) = some (f, d :: r) := by
  have hdq : ¬d = '"' := by
    rcases hd with h | h <;> simp [h]
  cases hq : needsQuote f with
  | true =>
    have : escField f ++ d :: r = '"' :: (escChars f.data ++ '"' :: d :: r) := by
      simp [escField, hq]
    rw [this]
    have hstep : parseOneField ('"' :: (escChars f.data ++ '"' :: d :: r)) =
        (takeQField (escChars f.data ++ '"' :: d :: r)).map
          (fun p => (String.mk p.1, p.2)) := rfl
    rw [hstep, takeQField_esc f.data d r hdq]
    simp [mk_data]
  | false =>
    have hspec := needsQuote_false_spec f hq
    have hesc : escField f ++ d :: r = f.data ++ d :: r := by
      simp [escField, hq]
    rw [hesc]
    cases hfd : f.data with
    | nil =>
      have hf : f = "" := by
        have := congrArg String.mk hfd
        simpa [mk_data] using this
      have : (d = ';' || d = '\n') = true := by
        rcases hd with h | h <;> simp [h]
      simp [parseOneField, hdq, takeField, this, hf]
    | cons c cs =>
      have hc := hspec c (by rw [hfd]; exact List.mem_cons_self c cs)
      have htf : takeField ((c :: cs) ++ d :: r) = (c :: cs, d :: r) := by
        refine takeField_append (c :: cs) d r (fun x hx => ?_) hd
        have := hspec x (by rw [hfd]; exact hx)
        exact ⟨this.1, this.2.2.1⟩
      simp only [List.cons_append, parseOneField, if_neg hc.2.1]
      simp only [← List.cons_append, htf]
      have : String.mk (c :: cs) = f := by
        rw [← hfd, mk_data]
      simp [this]

/-- Parsing the fields of a serialised record recovers the record and
stops after its terminating newline. -/
lemma parseFields_writeRecord (fs : List String) (hfs : fs ≠ []) :
    ∀ (rest : List Char) (fuel : Nat), fs.length ≤ fuel →
      parseFields fuel (writeRecord fs ++ '\n' :: rest) = some (fs, rest) := by
  induction fs with
  | nil => exact absurd rfl hfs
  | cons f fs ih =>
    intro rest fuel hfuel
    obtain ⟨k, rfl⟩ : ∃ k, fuel = k + 1 := ⟨fuel - 1, by simp at hfuel; omega⟩
    cases fs with
    | nil =>
      simp only [writeRecord, parseFields,
        parseOneField_escField f '\n' rest (Or.inr rfl)]
    | cons f2 fs2 =>
      have hw : writeRecord (f :: f2 :: fs2) ++ '\n' :: rest =
          escField f ++ ';' :: (writeRecord (f2 :: fs2) ++ '\n' :: rest) := by
        simp [writeRecord]
      rw [hw]
      simp only [parseFields, parseOneField_escField f ';'
        (writeRecord (f2 :: fs2) ++ '\n' :: rest) (Or.inl rfl)]
      rw [ih (by simp) rest k (by simp at hfuel ⊢; omega)]
      rfl

/-- A record's serialisation is at most one character shorter than its
field count. -/
lemma length_writeRecord_ge (fs : List String) :
    fs.length ≤ (writeRecord fs).length + 1 := by
  induction fs with
  | nil => simp [writeRecord]
  | cons f fs ih =>
    cases fs with
    | nil => simp [writeRecord]
    | cons f2 fs2 =>
      simp only [writeRecord, List.length_append, List.length_cons] at ih ⊢
      omega

/-- Each serialised record contributes at least its newline. -/
lemma length_writeAll_ge (recs : List (List String)) :
    recs.length ≤ (writeAll recs).length := by
  induction recs with
  | nil => simp [writeAll]
  | cons r rs ih =>
    simp only [writeAll, List.length_append, List.length_cons, List.length_cons]
    omega

/-- Parsing a serialised record list recovers it, given enough fuel and no
empty record. -/
lemma parseRecords_writeAll (recs : List (List String))
    (h : ∀ r ∈ recs, r ≠ []) :
    ∀ fuel : Nat, recs.length < fuel →
      parseRecords fuel (writeAll recs) = some recs := by
  induction recs with
  | nil =>
    intro fuel hfuel
    obtain ⟨k, rfl⟩ : ∃ k, fuel = k + 1 := ⟨fuel - 1, by omega⟩
    simp [writeAll, parseRecords]
  | cons r rs ih =>
    intro fuel hfuel
    obtain ⟨k, rfl⟩ : ∃ k, fuel = k + 1 := ⟨fuel - 1, by omega⟩
    have hcs : writeAll (r :: rs) = writeRecord r ++ '\n' :: writeAll rs := rfl
    have hne : (writeRecord r ++ '\n' :: writeAll rs).isEmpty = false := by
      cases hw : writeRecord r <;> simp [hw, List.isEmpty]
    have hlen : r.length ≤ (writeRecord r ++ '\n' :: writeAll rs).length + 1 := by
      have h1 := length_writeRecord_ge r
      simp only [List.length_append, List.length_cons]
      omega
    rw [hcs]
    simp only [parseRecords, hne, Bool.false_eq_true, if_false,
      parseFields_writeRecord r (h r (List.mem_cons_self r rs)) (writeAll rs) _ hlen,
      ih (fun x hx => h x (List.mem_cons_of_mem r hx)) k (by simp at hfuel; omega)]
    rfl

/-- Round-trip: parsing the written CSV text back with the same separator
recovers the column list as the header and one record per row (each row's
cells in column order). -/
lemma parseCsv_toCsv (df : DataFrame) (h : df.cols ≠ []) :
    parseCsv (toCsv df) =
      some (df.cols, df.rows.map (fun r => df.cols.map (fun c => getCell r c))) := by
  have hrecs : ∀ r ∈ recordsOf df, r ≠ [] := by
    intro r hr
    rcases List.mem_cons.mp hr with h1 | h1
    · rw [h1]; exact h
    · obtain ⟨r0, _, rfl⟩ := List.mem_map.mp h1
      simpa using h
  have hfuel : (recordsOf df).length < (writeAll (recordsOf df)).length + 1 := by
    have := length_writeAll_ge (recordsOf df)
    omega
  unfold parseCsv toCsv
  rw [show (String.mk (writeAll (recordsOf df))).data = writeAll (recordsOf df) from rfl]
  rw [parseRecords_writeAll (recordsOf df) hrecs _ hfuel]
  rfl

/-- For every some-result of `combine_and_save_data` the provenance column
is present, so the column list is non-empty. -/
lemma combine_cols_ne_nil (oa ob : Option DataFrame) (df : DataFrame)
    (h : combine_and_save_data oa ob = some df) : df.cols ≠ [] := by
  refine List.ne_nil_of_mem (a := "Wohnort/Behandlungsort") ?_
  rcases oa with _ | a <;> rcases ob with _ | b
  · simp [combine_and_save_data] at h
  · have hdf : df = sortIfJahr (setCol b "Wohnort/Behandlungsort" "nach Wohnort") := by
      simpa [combine_and_save_data] using h.symm
    rw [hdf, cols_sortIfJahr]
    exact mem_cols_setCol b _ _
  · have hdf : df = sortIfJahr (setCol a "Wohnort/Behandlungsort" "nach Behandlungsort") := by
      simpa [combine_and_save_data] using h.symm
    rw [hdf, cols_sortIfJahr]
    exact mem_cols_setCol a _ _
  · have hdf : df = sortIfJahr (dfConcat
        (setCol a "Wohnort/Behandlungsort" "nach Behandlungsort")
        (setCol b "Wohnort/Behandlungsort" "nach Wohnort")) := by
      simpa [combine_and_save_data] using h.symm
    rw [hdf, cols_sortIfJahr, dfConcat_cols]
    exact List.mem_append_left _ (mem_cols_setCol a _ _)

/-- **C7.** The output file is written with semicolon separator, a header
row and no row-index column (the shape of `toCsv`), and parsing it back
with the same separator yields the combined dataset's column list as the
header and exactly one record per row: the round-trip preserves row count
and column set. -/
theorem csv_roundtrip (oa ob : Option DataFrame) (df : DataFrame)
    (h : combine_and_save_data oa ob = some df) :
    ∃ recs, parseCsv (toCsv df) = some (df.cols, recs) ∧
      recs.length = df.rows.length :=
  ⟨df.rows.map (fun r => df.cols.map (fun c => getCell r c)),
    parseCsv_toCsv df (combine_cols_ne_nil oa ob df h), by simp⟩

/-- Witness for C7 at the concrete combined frame. -/
theorem csv_roundtrip_witness :
    ∃ recs, parseCsv (toCsv dfExC) = some (dfExC.cols, recs) ∧
      recs.length = dfExC.rows.length :=
  csv_roundtrip (some dfExA) (some dfExB) dfExC rfl

end FetchGenesis
